import Mathlib

/-!
Verification of the cftools-sdk transport/auth core against its design
specification.  The definitions below are shallow embeddings of the
TypeScript source files `src/internal/http.ts`, `src/internal/auth.ts`,
`src/internal/got/client.ts` and `src/types.ts` (the latest revision of
each file).  Timestamps are integer milliseconds since the Unix epoch,
matching JavaScript `Date.getTime()`.
-/

set_option autoImplicit false

deriving instance DecidableEq for Except

namespace CFTools

/-- `Authorization` from `src/types.ts`: scheme tag, opaque token, creation
timestamp and expiry timestamp (ms since epoch). -/
structure Authorization where
  type : String
  token : String
  created : Int
  expiresAt : Int
  deriving Repr, DecidableEq

/-- Modelled from the spec: `Authorization.asHeader` in the revision of
`types.ts` used by `GotHttpClient.populateContext` (which object-spreads the
result into the request headers) is missing from the source; the revision
present returns the bare string `type + ' ' + token`.  The spec states the
credential "Produces a wire-ready header representation" and that every
authenticated request attaches `Authorization: Bearer <token>`, so the
header map carries that string under the `authorization` key (the key the
source's `redactHeaders` list uses). -/
def Authorization.asHeader (a : Authorization) : List (String × String) :=
  [("authorization", a.type ++ " " ++ a.token)]

/-- The parsed shape of a failed response's body.  `JSON.parse` of the raw
body either throws (`malformed`) or yields structured data in which the
`error` tag and the `request_id` field may each be present or absent. -/
inductive ErrorBody where
  /-- the body is not valid JSON; `JSON.parse` throws -/
  | malformed
  /-- structured body with optional `error` tag and optional `request_id` -/
  | parsed (error : Option String) (requestId : Option String)
  deriving Repr, DecidableEq

/-- A failed HTTP exchange as seen by the classifier (`got`'s `HTTPError`):
response status code, response body, and the request URL. -/
structure HTTPError where
  statusCode : Nat
  body : ErrorBody
  requestUrl : String
  deriving Repr, DecidableEq

/-- A failure thrown from inside the classifier itself rather than returned
by it: a `JSON.parse` SyntaxError, or the TypeError raised by
`auth!!.throwExpired` when no credential was attached to the request. -/
inductive JsFailure where
  | parseError
  | typeErrorNoAuth
  deriving Repr, DecidableEq

/-- The typed error taxonomy of `src/types.ts`, plus `raw` for the
pass-through case in which `fromHttpError` returns the original transport
failure unchanged. -/
inductive SdkError where
  | resourceNotFound (url : String)
  | resourceNotConfigured (bucket : String)
  | requestLimitExceeded (url : String)
  | duplicateResourceCreation (url : String)
  | grantRequired (url : String)
  | tokenExpired (url : String) (info : Authorization)
  | unknownError (url : String) (requestId : Option String)
  | timeoutError (url : String)
  | cftoolsUnavailable (url : String)
  | raw (e : HTTPError)
  deriving Repr, DecidableEq

/-- `errorMessage` from `src/internal/http.ts`: parse the body and return
its `error` tag, or `''` when the tag is absent; a malformed body makes
`JSON.parse` throw. -/
def errorMessage (body : ErrorBody) : Except JsFailure String :=
  match body with
  | .malformed => .error .parseError
  | .parsed e _ => .ok (e.getD "")

/-- the `request_id` field read by the `unexpected-error` branch -/
def requestIdOf (body : ErrorBody) : Option String :=
  match body with
  | .malformed => none
  | .parsed _ rid => rid

/-- JavaScript `s.split('/')` on the underlying character list: always
yields at least one (possibly empty) segment. -/
def splitOnSlash : List Char → List (List Char)
  | [] => [[]]
  | c :: rest =>
    let r := splitOnSlash rest
    if c = '/' then [] :: r
    else
      match r with
      | [] => [[c]]
      | s :: ss => (c :: s) :: ss

/-- the bucket name extracted for `ResourceNotConfigured`:
`error.request.requestUrl.split('/')` and take the last part -/
def lastUrlSegment (url : String) : String :=
  String.mk ((splitOnSlash url.data).getLastD [])

/-- `fromHttpError` from `src/internal/http.ts` (the `GotHttpClient`
revision).  The `expired-token` row calls `auth!!.throwExpired(url)`; with
no credential attached that dereference throws a TypeError, otherwise it
produces `TokenExpired` carrying the credential snapshot.
The source is a sequence of `if (status === n && errorMessage(response) === tag)`
guards evaluated in order with `&&` short-circuiting; since the status tests
of distinct rows are mutually exclusive and `errorMessage` is pure, the
sequence is rendered as one dispatch on the status code with the body parsed
once inside each status group, preserving exactly when a parse failure is
raised. -/
def fromHttpError (error : HTTPError) (auth : Option Authorization) :
    Except JsFailure SdkError :=
  if error.statusCode = 404 then
    match errorMessage error.body with
    | .error f => .error f
    | .ok msg =>
      if msg = "invalid-bucket" then
        .ok (.resourceNotConfigured (lastUrlSegment error.requestUrl))
      else .ok (.resourceNotFound error.requestUrl)
  else if error.statusCode = 429 then
    .ok (.requestLimitExceeded error.requestUrl)
  else if error.statusCode = 400 then
    match errorMessage error.body with
    | .error f => .error f
    | .ok msg =>
      if msg = "duplicate" then .ok (.duplicateResourceCreation error.requestUrl)
      else .ok (.raw error)
  else if error.statusCode = 403 then
    match errorMessage error.body with
    | .error f => .error f
    | .ok msg =>
      if msg = "no-grant" then .ok (.grantRequired error.requestUrl)
      else if msg = "expired-token" then
        match auth with
        | none => .error .typeErrorNoAuth
        | some a => .ok (.tokenExpired error.requestUrl a)
      else .ok (.raw error)
  else if error.statusCode = 500 then
    match errorMessage error.body with
    | .error f => .error f
    | .ok msg =>
      if msg = "unexpected-error" then
        .ok (.unknownError error.requestUrl (requestIdOf error.body))
      else if msg = "timeout" then .ok (.timeoutError error.requestUrl)
      else if msg = "system-unavailable" then .ok (.cftoolsUnavailable error.requestUrl)
      else .ok (.raw error)
  else .ok (.raw error)

/-- An error as raised out of `GotHttpClient.withErrorHandler`: either a
classified (or passed-through) `SdkError`, or a failure thrown from inside
`fromHttpError` itself. -/
inductive RaisedError where
  | js (f : JsFailure)
  | sdk (e : SdkError)
  deriving Repr, DecidableEq

/-- `throw fromHttpError(e, a)` as it appears at a `catch` site: a failure
thrown inside the classifier propagates, otherwise the classified error is
raised. -/
def raiseOf (e : HTTPError) (a : Option Authorization) : RaisedError :=
  match fromHttpError e a with
  | .error f => .js f
  | .ok s => .sdk s

/-- calls the executor makes on the `AuthorizationProvider` -/
inductive AuthEvent where
  | reportExpired
  | provide
  deriving Repr, DecidableEq

/-- The environment of one `withErrorHandler` run: the outcome each of the
two possible underlying HTTP attempts of the request would have, the
`authorization` entry of the request's context bag, whether the client was
constructed with an `AuthorizationProvider`, and the credential that
provider's `provide()` yields on the retry path. -/
structure ExecEnv (T : Type) where
  firstAttempt : Except HTTPError T
  secondAttempt : Except HTTPError T
  ctxAuth : Option Authorization
  hasAuthProvider : Bool
  providedAuth : Option Authorization
  deriving Repr, DecidableEq

/-- The observable result of one `withErrorHandler` run: the value returned
or error raised, the number of underlying HTTP attempts made, and the calls
made on the `AuthorizationProvider`. -/
structure ExecResult (T : Type) where
  result : Except RaisedError T
  httpCalls : Nat
  authEvents : List AuthEvent
  deriving Repr, DecidableEq

/-- `GotHttpClient.withErrorHandler` from `src/internal/http.ts`: await the
first attempt; on failure classify it with the context's credential; when
the classification is `TokenExpired`, call `reportExpired()` and `provide()`
on the provider (when present), re-execute the request once, and on a second
failure raise its independent classification (enriched with the freshly
provided credential); any other classification is raised at once. -/
def withErrorHandler {T : Type} (env : ExecEnv T) : ExecResult T :=
  match env.firstAttempt with
  | .ok v => ⟨.ok v, 1, []⟩
  | .error error =>
    match fromHttpError error env.ctxAuth with
    | .error f => ⟨.error (.js f), 1, []⟩
    | .ok err =>
      match err with
      | .tokenExpired _ _ =>
        let events := if env.hasAuthProvider then
          [AuthEvent.reportExpired, AuthEvent.provide] else []
        let authorization := if env.hasAuthProvider then env.providedAuth else none
        match env.secondAttempt with
        | .ok v => ⟨.ok v, 2, events⟩
        | .error e2 => ⟨.error (raiseOf e2 authorization), 2, events⟩
      | e => ⟨.error (.sdk e), 1, []⟩

/-- the per-request context bag, as the executor reads it -/
structure Context where
  authorization : Option Authorization
  deriving Repr, DecidableEq

/-- the slice of `got` request options the core touches: headers and the
opaque context bag -/
structure RequestOptions where
  headers : List (String × String)
  context : Option Context
  deriving Repr, DecidableEq

/-- JavaScript object spread `{...base, ...extra}` on string-keyed maps:
keys of `extra` override those of `base`. -/
def spreadMerge (base extra : List (String × String)) : List (String × String) :=
  base.filter (fun p => ¬ extra.any (fun q => q.1 = p.1)) ++ extra

/-- header lookup in the merged map -/
def getHeader (hs : List (String × String)) (k : String) : Option String :=
  (hs.find? (fun p => p.1 = k)).map (·.2)

/-- `GotHttpClient.populateContext` from `src/internal/http.ts`: take the
override context when given, else the options' own context; when options
exist and the chosen context carries an authorization, merge its header
representation into `options.headers`, mutating the options in place.
Returns the new options state (the mutation is visible to later calls on
the same options) paired with the value passed to the transport
(`options ? options : {}`). -/
def populateContext (options : Option RequestOptions)
    (contextOverride : Option Context) :
    Option RequestOptions × RequestOptions :=
  let context : Option Context :=
    contextOverride.orElse (fun _ => options.bind (·.context))
  match options with
  | none => (none, ⟨[], none⟩)
  | some opts =>
    match context.bind (·.authorization) with
    | some a =>
      let opts2 : RequestOptions :=
        { opts with headers := spreadMerge opts.headers a.asHeader }
      (some opts2, opts2)
    | none => (some opts, opts)

/-- the three verbs of the `HttpClient` interface -/
inductive Verb where
  | get
  | post
  | delete
  deriving Repr, DecidableEq

/-- How each verb of `GotHttpClient` builds the options for an attempt:
`get` forwards the retry context to `populateContext(options, context)`;
`delete` and `post` call `populateContext(options)`, dropping the context
argument their `requestFn` received. -/
def attemptOptions (v : Verb) (options : Option RequestOptions)
    (ctx : Option Context) : Option RequestOptions × RequestOptions :=
  match v with
  | .get => populateContext options ctx
  | .post => populateContext options none
  | .delete => populateContext options none

/-- The options actually handed to the transport on the first attempt and on
the `TokenExpired` retry of a request issued through verb `v`.  The first
attempt is `requestFn(undefined)`; the retry is
`requestFn({...r.context, authorization})` with `authorization` the freshly
provided credential, acting on the options as already mutated by the first
attempt. -/
def retrySentOptions (v : Verb) (options0 : Option RequestOptions)
    (newAuth : Option Authorization) : RequestOptions × RequestOptions :=
  let first := attemptOptions v options0 none
  let newContext : Context := ⟨newAuth⟩
  let second := attemptOptions v first.1 (some newContext)
  (first.2, second.2)

/-- A wall-clock instant as JavaScript `new Date()` sees it: milliseconds
since the epoch together with its calendar decomposition into day-of-month
(`getDate()`, 1-31) and hour-of-day (`getHours()`, 0-23).  Dates are taken
in a fixed-offset (UTC-like) timezone, where every day lasts exactly
86400000 ms. -/
structure JsDate where
  epochMs : Int
  dayOfMonth : Int
  hourOfDay : Int
  deriving Repr, DecidableEq

/-- JavaScript `d.setDate(n)`: ECMA computes the new time from the start of
the current month plus `n - 1` days, keeping the time within the day, so in
a fixed-offset timezone the instant moves by exactly
`(n - dayOfMonth) * 86400000` ms (month overflow rolls over linearly). -/
def JsDate.setDate (d : JsDate) (n : Int) : Int :=
  d.epochMs + (n - d.dayOfMonth) * 86400000

/-- the mutable slots of `CFToolsAuthorizationProvider`
(`src/internal/auth.ts`): token, creation instant and expiry instant -/
structure AuthState where
  token : Option String
  created : Option Int
  expired : Option Int
  deriving Repr, DecidableEq

/-- `CFToolsAuthorizationProvider.setToken`: store the token, set `created`
to now, and set `expired` to `new Date()` with
`expired.setDate(expired.getHours() + 23)` applied — i.e. the day-of-month
is set to the current hour-of-day plus 23. -/
def setToken (_s : AuthState) (token : String) (now : JsDate) : AuthState :=
  { token := some token
    created := some now.epochMs
    expired := some (now.setDate (now.hourOfDay + 23)) }

/-- `CFToolsAuthorizationProvider.hasToken`:
`!!this.token && !!this.expired && this.expired.getTime() <= new Date().getTime()`. -/
def hasToken (s : AuthState) (now : JsDate) : Bool :=
  s.token.isSome && s.expired.isSome && decide (s.expired.getD 0 ≤ now.epochMs)

/-- `CFToolsAuthorizationProvider.reportExpired`: clear token and expiry. -/
def reportExpired (s : AuthState) : AuthState :=
  { s with token := none, expired := none }

/-- outcome of one `provide()` call: the credential returned, whether it
came from the cache or from a fresh login exchange (`fetchToken`, one
network call), and the provider state afterwards -/
inductive ProvideResult where
  | cached (a : Authorization) (s : AuthState)
  | fetched (a : Authorization) (s : AuthState)
  deriving Repr, DecidableEq

/-- `CFToolsAuthorizationProvider.provide`: when `hasToken()` holds, return
an `Authorization` built from the cached slots with no network call;
otherwise perform the login exchange (`fetchToken`, which on success stores
the fresh token via `setToken`) and return an `Authorization` built from the
updated slots.  `freshToken` is the token the login endpoint would return. -/
def provide (s : AuthState) (now : JsDate) (freshToken : String) : ProvideResult :=
  if hasToken s now then
    .cached ⟨"Bearer", s.token.getD "", s.created.getD 0, s.expired.getD 0⟩ s
  else
    let s2 := setToken s freshToken now
    .fetched ⟨"Bearer", freshToken, s2.created.getD 0, s2.expired.getD 0⟩ s2

/-- the five player-identifier kinds of `src/types.ts` -/
inductive GenericId where
  | steamId64 (id : String)
  | battlEyeGUID (id : String)
  | bohemiaInteractiveId (id : String)
  | cftoolsId (id : String)
  | ipAddress (id : String)
  deriving Repr, DecidableEq

/-- the `id` accessor every identifier kind exposes -/
def GenericId.id : GenericId → String
  | .steamId64 s => s
  | .battlEyeGUID s => s
  | .bohemiaInteractiveId s => s
  | .cftoolsId s => s
  | .ipAddress s => s

/-- `playerId instanceof SteamId64` -/
def GenericId.isSteam : GenericId → Bool
  | .steamId64 _ => true
  | _ => false

/-- `resolve` accepts either a bare identifier or a request object with a
`playerId` field -/
inductive ResolveInput where
  | direct (id : GenericId)
  | withPlayerId (playerId : GenericId)
  deriving Repr, DecidableEq

/-- the `'playerId' in id` unwrapping at the top of `resolve` -/
def ResolveInput.playerId : ResolveInput → GenericId
  | .direct i => i
  | .withPlayerId i => i

/-- `GET /v1/users/lookup` success body: `{cftools_id}` -/
structure GetUserLookupResponse where
  cftools_id : String
  deriving Repr, DecidableEq

/-- Modelled from the spec: `GetPlayerLookupResponseWithNotice` is absent
from the revision of `src/internal/got/types.ts` in the tree; the spec's
lookup endpoint "on creation" returns `{cftools_id, notice}`. -/
structure GetPlayerLookupResponseWithNotice where
  cftools_id : String
  notice : String
  deriving Repr, DecidableEq

/-- The environment of one `GotCFToolsClient.resolve` run: the client
construction flags and the outcome each lookup request would have.
`lookupResult` is the plain `GET v1/users/lookup` outcome; `createResult`
the outcome of the same lookup with `create: true`. -/
structure ResolveEnv where
  hasAccountCreationAccess : Option Bool
  enterpriseToken : Option String
  lookupResult : Except RaisedError GetUserLookupResponse
  createResult : Except RaisedError GetPlayerLookupResponseWithNotice
  deriving Repr, DecidableEq

/-- Modelled from the spec: the `AccountCreationFailed` error class is
imported by `src/internal/got/client.ts` but absent from the revision of
`src/types.ts` in the tree; the spec has it "carrying the identifier and the
unexpected notice text". -/
inductive ResolveOutcome where
  | ok (id : String)
  | accountCreationFailed (identifier : String) (notice : String)
  | raised (f : RaisedError)
  deriving Repr, DecidableEq

/-- the result of `resolve` together with the lookup GET requests it issued,
each recorded by its `create` flag -/
structure ResolveResult where
  outcome : ResolveOutcome
  calls : List Bool
  deriving Repr, DecidableEq

/-- the exact notice string `resolve` requires from the creation response -/
def accountCreatedNotice : String := "Account Creation API account created"

/-- `GotCFToolsClient.resolve` from `src/internal/got/client.ts`: an already
canonical `CFToolsId` is returned unchanged with no request; otherwise one
plain lookup is issued; on its failure, when account-creation access is
enabled (`hasAccountCreationAccess === true`), an enterprise token is
configured and the identifier is a `SteamId64`, the lookup is reissued with
`create: true` and its notice must equal `accountCreatedNotice` exactly,
else `AccountCreationFailed` carries the identifier and the notice; without
the fallback conditions the original failure propagates. -/
def resolve (env : ResolveEnv) (input : ResolveInput) : ResolveResult :=
  let playerId := input.playerId
  match playerId with
  | .cftoolsId s => ⟨.ok s, []⟩
  | _ =>
    let requestUsesAccountCreation :=
      (env.hasAccountCreationAccess = some true : Bool)
        && env.enterpriseToken.isSome && playerId.isSteam
    match env.lookupResult with
    | .ok r => ⟨.ok r.cftools_id, [false]⟩
    | .error err =>
      if requestUsesAccountCreation then
        match env.createResult with
        | .error f2 => ⟨.raised f2, [false, true]⟩
        | .ok r2 =>
          if r2.notice ≠ accountCreatedNotice then
            ⟨.accountCreationFailed playerId.id r2.notice, [false, true]⟩
          else
            ⟨.ok r2.cftools_id, [false, true]⟩
      else ⟨.raised err, [false]⟩

/-- a ban entry as `deleteBan` consumes it -/
structure Ban where
  id : String
  deriving Repr, DecidableEq

/-- `DeleteBanRequest` from `src/types.ts`: optional ban record, optional
player identifier (the banlist field plays no role in the control flow
modelled here) -/
structure DeleteBanRequest where
  playerId : Option GenericId
  ban : Option Ban
  deriving Repr, DecidableEq

/-- errors `deleteBan` can raise: the typed `AmbiguousDeleteBanRequest`
from the taxonomy, a bare untyped `Error(msg)`, or a propagated HTTP
failure -/
inductive DeleteBanError where
  | ambiguousDeleteBanRequest
  | plainError (msg : String)
  | raised (f : RaisedError)
  deriving Repr, DecidableEq

/-- outcomes of the collaborator calls `deleteBan` makes: the `listBans`
result (with the number of HTTP calls that lookup itself performs) and the
outcome of the final DELETE request -/
structure DeleteBanEnv where
  listBansResult : Except RaisedError (List Ban)
  listBansCalls : Nat
  deleteResult : Except RaisedError Unit
  deriving Repr, DecidableEq

/-- result of `deleteBan` plus the number of HTTP calls made -/
structure DeleteBanResult where
  outcome : Except DeleteBanError Unit
  httpCalls : Nat
  deriving Repr, DecidableEq

/-- `GotCFToolsClient.deleteBan` from `src/internal/got/client.ts`: take the
ban from the request when given; else, when a player identifier is given,
list that player's bans, raising `AmbiguousDeleteBanRequest` on more than
one and returning silently on none; with neither identifier, throw the bare
`Error('At least one identifier is needed, none received.')` before any
request is made; finally issue the DELETE for the chosen ban. -/
def deleteBan (env : DeleteBanEnv) (req : DeleteBanRequest) : DeleteBanResult :=
  match req.ban with
  | some _ =>
    match env.deleteResult with
    | .ok _ => ⟨.ok (), 1⟩
    | .error f => ⟨.error (.raised f), 1⟩
  | none =>
    match req.playerId with
    | some _ =>
      match env.listBansResult with
      | .error f => ⟨.error (.raised f), env.listBansCalls⟩
      | .ok bans =>
        if bans.length > 1 then
          ⟨.error .ambiguousDeleteBanRequest, env.listBansCalls⟩
        else
          match bans.head? with
          | none => ⟨.ok (), env.listBansCalls⟩
          | some _ =>
            match env.deleteResult with
            | .ok _ => ⟨.ok (), env.listBansCalls + 1⟩
            | .error f => ⟨.error (.raised f), env.listBansCalls + 1⟩
    | none =>
      ⟨.error (.plainError "At least one identifier is needed, none received."), 0⟩

/-- C1: a request whose first attempt fails with a failure classified as
`TokenExpired` makes the executor call `reportExpired()` and `provide()` on
the authorization provider, re-execute the request exactly once more, and —
when that retry succeeds — return the retry's successful result, with
exactly two underlying HTTP attempts made. -/
theorem c1_token_expired_single_retry {T : Type} (env : ExecEnv T) (v : T)
    (e : HTTPError) (u : String) (info : Authorization)
    (h1 : env.firstAttempt = .error e)
    (h2 : fromHttpError e env.ctxAuth = .ok (.tokenExpired u info))
    (h3 : env.hasAuthProvider = true)
    (h4 : env.secondAttempt = .ok v) :
    withErrorHandler env = ⟨.ok v, 2, [.reportExpired, .provide]⟩ := by
  simp [withErrorHandler, h1, h2, h3, h4]

/-- witness for C1 at a concrete environment: first attempt fails with
403/`expired-token`, retry returns 7 -/
theorem c1_witness :
    withErrorHandler (T := Nat)
      ⟨.error ⟨403, .parsed (some "expired-token") none, "u"⟩, .ok 7,
        some ⟨"Bearer", "OLD", 0, 1⟩, true, some ⟨"Bearer", "NEW", 2, 3⟩⟩ =
      ⟨.ok 7, 2, [.reportExpired, .provide]⟩ :=
  c1_token_expired_single_retry _ 7 ⟨403, .parsed (some "expired-token") none, "u"⟩
    "u" ⟨"Bearer", "OLD", 0, 1⟩ rfl (by decide) rfl rfl

/-- C2: when the first attempt is classified `TokenExpired` and the single
retry also fails, the executor raises the classification of the second
failure (computed independently by `fromHttpError` against the freshly
provided credential — possibly `TokenExpired` again) and makes exactly two
HTTP attempts, never a third. -/
theorem c2_no_double_retry {T : Type} (env : ExecEnv T)
    (e e2 : HTTPError) (u : String) (info : Authorization)
    (h1 : env.firstAttempt = .error e)
    (h2 : fromHttpError e env.ctxAuth = .ok (.tokenExpired u info))
    (h3 : env.hasAuthProvider = true)
    (h4 : env.secondAttempt = .error e2) :
    withErrorHandler env =
      ⟨.error (raiseOf e2 env.providedAuth), 2, [.reportExpired, .provide]⟩ := by
  simp [withErrorHandler, h1, h2, h3, h4]

/-- witness for C2 at a concrete environment: both attempts fail with
403/`expired-token`; the raised error is the second failure's own
classification, carrying the fresh credential, after exactly two calls -/
theorem c2_witness :
    withErrorHandler (T := Nat)
      ⟨.error ⟨403, .parsed (some "expired-token") none, "u"⟩,
        .error ⟨403, .parsed (some "expired-token") none, "u"⟩,
        some ⟨"Bearer", "OLD", 0, 1⟩, true, some ⟨"Bearer", "NEW", 2, 3⟩⟩ =
      ⟨.error (.sdk (.tokenExpired "u" ⟨"Bearer", "NEW", 2, 3⟩)), 2,
        [.reportExpired, .provide]⟩ := by
  have h := c2_no_double_retry (T := Nat)
    ⟨.error ⟨403, .parsed (some "expired-token") none, "u"⟩,
      .error ⟨403, .parsed (some "expired-token") none, "u"⟩,
      some ⟨"Bearer", "OLD", 0, 1⟩, true, some ⟨"Bearer", "NEW", 2, 3⟩⟩
    ⟨403, .parsed (some "expired-token") none, "u"⟩
    ⟨403, .parsed (some "expired-token") none, "u"⟩
    "u" ⟨"Bearer", "OLD", 0, 1⟩ rfl (by decide) rfl rfl
  rw [h]
  decide

/-- C3: the claim reads "if a credential is cached and its expiry instant is
still in the future, provide() returns the cached credential with no network
call; otherwise provide() performs a login exchange", and in particular a
cached credential expired one hour ago must trigger a fresh login.  The code
inverts the comparison (`hasToken` demands `expired.getTime() <= now`), so
with token "T1", expiry `t0+23h` and now `t0+24h` the provider returns the
stale "T1" from cache with no login, while a credential whose expiry is one
hour in the future triggers a (redundant) login exchange. -/
theorem c3_expiry_comparison_inverted :
    provide ⟨some "T1", some 0, some 82800000⟩ ⟨86400000, 2, 0⟩ "T2" =
      .cached ⟨"Bearer", "T1", 0, 82800000⟩ ⟨some "T1", some 0, some 82800000⟩ ∧
    provide ⟨some "T1", some 0, some 90000000⟩ ⟨86400000, 2, 0⟩ "T2" =
      .fetched ⟨"Bearer", "T2", 86400000, 86400000 + 21 * 86400000⟩
        ⟨some "T2", some 86400000, some (86400000 + 21 * 86400000)⟩ := by
  constructor
  · decide
  · decide

/-- C5: the claim reads "for every request retried after a TokenExpired
classification, regardless of HTTP verb (GET, POST, and DELETE alike), the
retried request carries the newly provided credential in its headers".
`GotHttpClient.get` forwards the refreshed context to `populateContext`, but
`post` and `delete` call `populateContext(options)` without it, so their
retry re-merges the original context's stale credential: with stale token
"OLD" and fresh token "NEW", the retried POST (and DELETE) carries
`Bearer OLD` while the retried GET carries `Bearer NEW`. -/
theorem c5_post_delete_retry_keeps_stale_header :
    (getHeader (retrySentOptions .post
        (some ⟨[], some ⟨some ⟨"Bearer", "OLD", 0, 1⟩⟩⟩)
        (some ⟨"Bearer", "NEW", 2, 3⟩)).2.headers "authorization" =
      some "Bearer OLD") ∧
    (getHeader (retrySentOptions .delete
        (some ⟨[], some ⟨some ⟨"Bearer", "OLD", 0, 1⟩⟩⟩)
        (some ⟨"Bearer", "NEW", 2, 3⟩)).2.headers "authorization" =
      some "Bearer OLD") ∧
    (getHeader (retrySentOptions .get
        (some ⟨[], some ⟨some ⟨"Bearer", "OLD", 0, 1⟩⟩⟩)
        (some ⟨"Bearer", "NEW", 2, 3⟩)).2.headers "authorization" =
      some "Bearer NEW") := by
  refine ⟨?_, ?_, ?_⟩ <;> decide

/-- C9: the claim reads "every credential ever constructed satisfies that
its expiry instant is not before its creation instant".  `setToken` computes
the expiry with `expired.setDate(expired.getHours() + 23)`, so a login
completing at 2021-01-28T00:00:00Z (day-of-month 28, hour 0) stores an
expiry five days before the creation instant. -/
theorem c9_expiry_before_creation :
    ((setToken ⟨none, none, none⟩ "T" ⟨1611792000000, 28, 0⟩).expired.getD 0 <
      (setToken ⟨none, none, none⟩ "T" ⟨1611792000000, 28, 0⟩).created.getD 0) ∧
    (setToken ⟨none, none, none⟩ "T" ⟨1611792000000, 28, 0⟩).expired =
      some 1611360000000 := by
  constructor
  · decide
  · decide

/-- C10: calling `deleteBan` with a request carrying neither a ban record
nor a player identifier raises the bare untyped
`Error('At least one identifier is needed, none received.')` — the
`DeleteBanError.plainError` case, distinct from every typed taxonomy error —
and makes zero HTTP calls, whatever the collaborator outcomes would be. -/
theorem c10_delete_ban_without_identifier (env : DeleteBanEnv) :
    deleteBan env ⟨none, none⟩ =
      ⟨.error (.plainError "At least one identifier is needed, none received."), 0⟩ :=
  rfl

/-- C4 counterexample: the claim reads "any (status, tag) pair not in the
table (for example status 404 with a tag other than the generic or
invalid-bucket ones ...) returns the raw transport failure unchanged".  A
404 whose tag is "weird" is classified `ResourceNotFound`, not passed
through raw. -/
theorem c4_counterexample :
    fromHttpError ⟨404, .parsed (some "weird") none, "a/b"⟩ none =
      .ok (.resourceNotFound "a/b") ∧
    fromHttpError ⟨404, .parsed (some "weird") none, "a/b"⟩ none ≠
      .ok (.raw ⟨404, .parsed (some "weird") none, "a/b"⟩) := by
  constructor
  · decide
  · decide

/-- C4 amended: each listed (status, tag) pair of the taxonomy table yields
exactly the listed kind (`expired-token` requiring a credential in the
context); unlisted tags on statuses 400, 403 and 500, and statuses outside
the table, pass the raw failure through unchanged; but status 404 is
classified `ResourceNotFound` for every tag other than `invalid-bucket`,
and status 429 is classified `RequestLimitExceeded` for every tag. -/
theorem c4_classification_by_status_and_tag (u tag : String) (rid : Option String)
    (a : Authorization) (x : Option Authorization) (status : Nat) :
    (tag = "invalid-bucket" →
      fromHttpError ⟨404, .parsed (some tag) rid, u⟩ x =
        .ok (.resourceNotConfigured (lastUrlSegment u))) ∧
    (tag ≠ "invalid-bucket" →
      fromHttpError ⟨404, .parsed (some tag) rid, u⟩ x = .ok (.resourceNotFound u)) ∧
    (fromHttpError ⟨429, .parsed (some tag) rid, u⟩ x =
      .ok (.requestLimitExceeded u)) ∧
    (tag = "duplicate" →
      fromHttpError ⟨400, .parsed (some tag) rid, u⟩ x =
        .ok (.duplicateResourceCreation u)) ∧
    (tag ≠ "duplicate" →
      fromHttpError ⟨400, .parsed (some tag) rid, u⟩ x =
        .ok (.raw ⟨400, .parsed (some tag) rid, u⟩)) ∧
    (tag = "no-grant" →
      fromHttpError ⟨403, .parsed (some tag) rid, u⟩ x = .ok (.grantRequired u)) ∧
    (tag = "expired-token" →
      fromHttpError ⟨403, .parsed (some tag) rid, u⟩ (some a) =
        .ok (.tokenExpired u a)) ∧
    (tag ≠ "no-grant" → tag ≠ "expired-token" →
      fromHttpError ⟨403, .parsed (some tag) rid, u⟩ x =
        .ok (.raw ⟨403, .parsed (some tag) rid, u⟩)) ∧
    (tag = "unexpected-error" →
      fromHttpError ⟨500, .parsed (some tag) rid, u⟩ x =
        .ok (.unknownError u rid)) ∧
    (tag = "timeout" →
      fromHttpError ⟨500, .parsed (some tag) rid, u⟩ x = .ok (.timeoutError u)) ∧
    (tag = "system-unavailable" →
      fromHttpError ⟨500, .parsed (some tag) rid, u⟩ x =
        .ok (.cftoolsUnavailable u)) ∧
    (tag ≠ "unexpected-error" → tag ≠ "timeout" → tag ≠ "system-unavailable" →
      fromHttpError ⟨500, .parsed (some tag) rid, u⟩ x =
        .ok (.raw ⟨500, .parsed (some tag) rid, u⟩)) ∧
    (status ≠ 400 → status ≠ 403 → status ≠ 404 → status ≠ 429 → status ≠ 500 →
      fromHttpError ⟨status, .parsed (some tag) rid, u⟩ x =
        .ok (.raw ⟨status, .parsed (some tag) rid, u⟩)) := by
  refine ⟨?_, ?_, ?_, ?_, ?_, ?_, ?_, ?_, ?_, ?_, ?_, ?_, ?_⟩
  · intro h; subst h; simp [fromHttpError, errorMessage]
  · intro h; simp [fromHttpError, errorMessage, h]
  · simp [fromHttpError, errorMessage]
  · intro h; subst h; simp [fromHttpError, errorMessage]
  · intro h; simp [fromHttpError, errorMessage, h]
  · intro h; subst h; simp [fromHttpError, errorMessage]
  · intro h; subst h; simp [fromHttpError, errorMessage]
  · intro h1 h2; simp [fromHttpError, errorMessage, h1, h2]
  · intro h; subst h; simp [fromHttpError, errorMessage, requestIdOf]
  · intro h; subst h; simp [fromHttpError, errorMessage]
  · intro h; subst h; simp [fromHttpError, errorMessage]
  · intro h1 h2 h3; simp [fromHttpError, errorMessage, h1, h2, h3]
  · intro h1 h2 h3 h4 h5; simp [fromHttpError, errorMessage, h1, h2, h3, h4, h5]

/-- witness for C4 at concrete inputs: a 404 with unlisted tag "weird" is
`ResourceNotFound`, a 403 with `expired-token` and credential is
`TokenExpired`, a 403 with unlisted tag "weird" passes through raw, and an
unlisted status 418 passes through raw -/
theorem c4_witness :
    fromHttpError ⟨404, .parsed (some "weird") none, "a/b"⟩ none =
      .ok (.resourceNotFound "a/b") ∧
    fromHttpError ⟨403, .parsed (some "expired-token") none, "u"⟩
      (some ⟨"Bearer", "T", 0, 1⟩) = .ok (.tokenExpired "u" ⟨"Bearer", "T", 0, 1⟩) ∧
    fromHttpError ⟨403, .parsed (some "weird") none, "u"⟩ none =
      .ok (.raw ⟨403, .parsed (some "weird") none, "u"⟩) ∧
    fromHttpError ⟨418, .parsed (some "weird") none, "u"⟩ none =
      .ok (.raw ⟨418, .parsed (some "weird") none, "u"⟩) :=
  ⟨(c4_classification_by_status_and_tag "a/b" "weird" none ⟨"Bearer", "T", 0, 1⟩
      none 418).2.1 (by decide),
    (c4_classification_by_status_and_tag "u" "expired-token" none
      ⟨"Bearer", "T", 0, 1⟩ none 418).2.2.2.2.2.2.1 rfl,
    (c4_classification_by_status_and_tag "u" "weird" none ⟨"Bearer", "T", 0, 1⟩
      none 418).2.2.2.2.2.2.2.1 (by decide) (by decide),
    (c4_classification_by_status_and_tag "u" "weird" none ⟨"Bearer", "T", 0, 1⟩
      none 418).2.2.2.2.2.2.2.2.2.2.2.2 (by decide) (by decide) (by decide)
      (by decide) (by decide)⟩

/-- C6 counterexample: the claim reads "a failed exchange whose body cannot
be parsed as structured data returns the raw transport failure unchanged".
A 404 with a malformed body makes `errorMessage`'s `JSON.parse` throw, and
that parse failure — not the raw transport failure — propagates. -/
theorem c6_counterexample :
    fromHttpError ⟨404, .malformed, "u"⟩ none = .error .parseError ∧
    fromHttpError ⟨404, .malformed, "u"⟩ none ≠
      .ok (.raw ⟨404, .malformed, "u"⟩) := by
  constructor
  · decide
  · decide

/-- C6 amended: a failed exchange whose body cannot be parsed raises the
parse failure itself on statuses 404, 400, 403 and 500 (whose rows call
`errorMessage`); a malformed 429 is still classified `RequestLimitExceeded`
(its row never parses the body), and statuses outside the table pass the
raw failure through unchanged. -/
theorem c6_malformed_body_raises_parse_failure (u : String)
    (x : Option Authorization) (status : Nat) :
    (fromHttpError ⟨404, .malformed, u⟩ x = .error .parseError) ∧
    (fromHttpError ⟨400, .malformed, u⟩ x = .error .parseError) ∧
    (fromHttpError ⟨403, .malformed, u⟩ x = .error .parseError) ∧
    (fromHttpError ⟨500, .malformed, u⟩ x = .error .parseError) ∧
    (fromHttpError ⟨429, .malformed, u⟩ x = .ok (.requestLimitExceeded u)) ∧
    (status ≠ 400 → status ≠ 403 → status ≠ 404 → status ≠ 429 → status ≠ 500 →
      fromHttpError ⟨status, .malformed, u⟩ x =
        .ok (.raw ⟨status, .malformed, u⟩)) := by
  refine ⟨?_, ?_, ?_, ?_, ?_, ?_⟩
  · simp [fromHttpError, errorMessage]
  · simp [fromHttpError, errorMessage]
  · simp [fromHttpError, errorMessage]
  · simp [fromHttpError, errorMessage]
  · simp [fromHttpError, errorMessage]
  · intro h1 h2 h3 h4 h5; simp [fromHttpError, errorMessage, h1, h2, h3, h4, h5]

/-- witness for C6 at concrete inputs: malformed bodies on 400 and on the
unlisted status 418 -/
theorem c6_witness :
    fromHttpError ⟨400, .malformed, "u"⟩ none = .error .parseError ∧
    fromHttpError ⟨418, .malformed, "u"⟩ none =
      .ok (.raw ⟨418, .malformed, "u"⟩) :=
  ⟨(c6_malformed_body_raises_parse_failure "u" none 418).2.1,
    (c6_malformed_body_raises_parse_failure "u" none 418).2.2.2.2.2
      (by decide) (by decide) (by decide) (by decide) (by decide)⟩

/-- C7: an already canonical `CFToolsId` is returned unchanged by `resolve`
with zero lookup requests; any other identifier kind whose plain lookup
succeeds yields the `cftools_id` of the lookup response body after exactly
one lookup request (carrying no create flag). -/
theorem c7_resolver_fast_path_and_single_lookup (env : ResolveEnv)
    (input : ResolveInput) (s : String) (r : GetUserLookupResponse) :
    (input.playerId = .cftoolsId s → resolve env input = ⟨.ok s, []⟩) ∧
    ((∀ t, input.playerId ≠ .cftoolsId t) → env.lookupResult = .ok r →
      resolve env input = ⟨.ok r.cftools_id, [false]⟩) := by
  constructor
  · intro h
    simp [resolve, h]
  · intro hne hlk
    cases hpid : input.playerId with
    | cftoolsId t => exact absurd hpid (hne t)
    | steamId64 t => simp [resolve, hpid, hlk]
    | battlEyeGUID t => simp [resolve, hpid, hlk]
    | bohemiaInteractiveId t => simp [resolve, hpid, hlk]
    | ipAddress t => simp [resolve, hpid, hlk]

/-- witness for C7 at concrete inputs: a canonical id resolves to itself
with no request; a BattlEye GUID with a successful lookup resolves to the
response body's id with one plain request -/
theorem c7_witness :
    resolve ⟨none, none, .ok ⟨"CF1"⟩, .error (.js .parseError)⟩
      (.direct (.cftoolsId "CF0")) = ⟨.ok "CF0", []⟩ ∧
    resolve ⟨none, none, .ok ⟨"CF1"⟩, .error (.js .parseError)⟩
      (.withPlayerId (.battlEyeGUID "B1")) = ⟨.ok "CF1", [false]⟩ :=
  ⟨(c7_resolver_fast_path_and_single_lookup _ _ "CF0" ⟨"CF1"⟩).1 rfl,
    (c7_resolver_fast_path_and_single_lookup _ _ "CF0" ⟨"CF1"⟩).2
      (fun _ h => GenericId.noConfusion h) rfl⟩

/-- C8: the account-creation fallback is taken only when
`hasAccountCreationAccess` is enabled together with an enterprise token and
the identifier is Steam-kind — otherwise a lookup failure propagates
unchanged after the single plain request; when the conditions hold and the
plain lookup fails, a second, create-flagged lookup is issued, whose exact
success notice yields the created id and whose mismatching notice raises
`AccountCreationFailed` carrying the identifier and the notice text. -/
theorem c8_account_creation_fallback (env : ResolveEnv) (input : ResolveInput)
    (f : RaisedError) (r2 : GetPlayerLookupResponseWithNotice) :
    ((∀ t, input.playerId ≠ .cftoolsId t) →
      ¬(env.hasAccountCreationAccess = some true ∧
        env.enterpriseToken.isSome = true ∧ input.playerId.isSteam = true) →
      env.lookupResult = .error f →
      resolve env input = ⟨.raised f, [false]⟩) ∧
    (env.hasAccountCreationAccess = some true → env.enterpriseToken.isSome = true →
      input.playerId.isSteam = true →
      env.lookupResult = .error f → env.createResult = .ok r2 →
      r2.notice = accountCreatedNotice →
      resolve env input = ⟨.ok r2.cftools_id, [false, true]⟩) ∧
    (env.hasAccountCreationAccess = some true → env.enterpriseToken.isSome = true →
      input.playerId.isSteam = true →
      env.lookupResult = .error f → env.createResult = .ok r2 →
      r2.notice ≠ accountCreatedNotice →
      resolve env input =
        ⟨.accountCreationFailed input.playerId.id r2.notice, [false, true]⟩) := by
  refine ⟨?_, ?_, ?_⟩
  · intro hne hcond hlk
    cases hpid : input.playerId with
    | cftoolsId t => exact absurd hpid (hne t)
    | steamId64 t =>
      simp [resolve, hpid, hlk, GenericId.isSteam]
      intro hA hE
      exact (hcond ⟨hA, hE, by rw [hpid]; rfl⟩).elim
    | battlEyeGUID t => simp [resolve, hpid, hlk, GenericId.isSteam]
    | bohemiaInteractiveId t => simp [resolve, hpid, hlk, GenericId.isSteam]
    | ipAddress t => simp [resolve, hpid, hlk, GenericId.isSteam]
  · intro hA hE hS hlk hcr hn
    cases hpid : input.playerId with
    | cftoolsId t => rw [hpid] at hS; exact absurd hS (by simp [GenericId.isSteam])
    | steamId64 t => simp [resolve, hpid, hlk, hcr, hn, hA, hE, GenericId.isSteam]
    | battlEyeGUID t => rw [hpid] at hS; exact absurd hS (by simp [GenericId.isSteam])
    | bohemiaInteractiveId t => rw [hpid] at hS; exact absurd hS (by simp [GenericId.isSteam])
    | ipAddress t => rw [hpid] at hS; exact absurd hS (by simp [GenericId.isSteam])
  · intro hA hE hS hlk hcr hn
    cases hpid : input.playerId with
    | cftoolsId t => rw [hpid] at hS; exact absurd hS (by simp [GenericId.isSteam])
    | steamId64 t =>
      simp [resolve, hpid, hlk, hcr, hn, hA, hE, GenericId.isSteam, GenericId.id]
    | battlEyeGUID t => rw [hpid] at hS; exact absurd hS (by simp [GenericId.isSteam])
    | bohemiaInteractiveId t => rw [hpid] at hS; exact absurd hS (by simp [GenericId.isSteam])
    | ipAddress t => rw [hpid] at hS; exact absurd hS (by simp [GenericId.isSteam])

/-- witness for C8 at concrete inputs: without the enterprise token the
lookup failure propagates after one call; with the full conditions, an exact
notice returns the created id and a mismatching notice raises
`AccountCreationFailed` carrying identifier and notice, after two calls -/
theorem c8_witness :
    resolve ⟨some true, none, .error (.sdk (.resourceNotFound "u")), .ok ⟨"CF2", "x"⟩⟩
      (.direct (.steamId64 "S1")) = ⟨.raised (.sdk (.resourceNotFound "u")), [false]⟩ ∧
    resolve ⟨some true, some "ET", .error (.sdk (.resourceNotFound "u")),
        .ok ⟨"CF2", "Account Creation API account created"⟩⟩
      (.direct (.steamId64 "S1")) = ⟨.ok "CF2", [false, true]⟩ ∧
    resolve ⟨some true, some "ET", .error (.sdk (.resourceNotFound "u")),
        .ok ⟨"CF2", "nope"⟩⟩ (.direct (.steamId64 "S1")) =
      ⟨.accountCreationFailed "S1" "nope", [false, true]⟩ :=
  ⟨(c8_account_creation_fallback _ _ (.sdk (.resourceNotFound "u")) ⟨"CF2", "x"⟩).1
      (fun _ h => GenericId.noConfusion h) (by intro h; exact absurd h.2.1 (by decide)) rfl,
    (c8_account_creation_fallback _ _ (.sdk (.resourceNotFound "u"))
        ⟨"CF2", "Account Creation API account created"⟩).2.1
      rfl rfl rfl rfl rfl (by decide),
    (c8_account_creation_fallback _ _ (.sdk (.resourceNotFound "u"))
        ⟨"CF2", "nope"⟩).2.2 rfl rfl rfl rfl rfl (by decide)⟩

end CFTools

